import Mathlib

/-!
Verification development for the weather-reporter control loop
(`src/unnamed/part_001`, second translation unit, and `src/include/helpers.h`).

The embedding below translates the navigation / input / render orchestration
code into Lean: the global mutable variables become fields of `AppState`,
`handleButtons` and the body of `loop` become pure step functions taking the
sampled `millis()` value (`now`) and the sampled button levels, and each
`display*` function becomes a function producing the list of abstract render
actions it performs.  Per the source's single-threaded structure, one `now`
sample is used per tick.
-/

namespace WeatherReporter

/-- Timing constants from the source (`UPDATE_INTERVAL`, `DEBOUNCE_DELAY`,
`PAGE_SWITCH_INTERVAL`, `COLON_FLASH_INTERVAL`, `LONG_PRESS_TIME`). -/
def UPDATE_INTERVAL : Nat := 300000

def DEBOUNCE_DELAY : Nat := 200

def PAGE_SWITCH_INTERVAL : Nat := 3000

def COLON_FLASH_INTERVAL : Nat := 500

def LONG_PRESS_TIME : Nat := 800

/-- The `Screen` enumeration of the source. -/
inductive Screen where
  | hourly
  | hourly2
  | conditions
  | daily
  | settings
  | about
  | demo
  | demo2
  | demo3
deriving DecidableEq, Repr

/-- Weather-mode screens (`settingsMode == false`). -/
def Screen.isWeather : Screen → Bool
  | .hourly | .hourly2 | .conditions | .daily => true
  | _ => false

/-- The screen set associated with the Weather mode. -/
def weatherScreens : List Screen := [.hourly, .hourly2, .conditions, .daily]

/-- The screen set associated with the Settings mode. -/
def settingsScreens : List Screen := [.settings, .about, .demo, .demo2, .demo3]

/-- The screen set associated with a mode (`settingsMode` boolean as in the
source). -/
def modeScreens (settingsMode : Bool) : List Screen :=
  if settingsMode then settingsScreens else weatherScreens

/-- Weather-mode Left successor: the `if (leftPressed)` switch in
`handleButtons` (weather branch). -/
def weatherLeftNext : Screen → Screen
  | .hourly => .hourly2
  | .hourly2 => .conditions
  | .conditions => .daily
  | .daily => .hourly
  | _ => .hourly

/-- Weather-mode Right successor: the `else` switch in `handleButtons`
(weather branch). -/
def weatherRightNext : Screen → Screen
  | .hourly => .daily
  | .hourly2 => .hourly
  | .conditions => .hourly2
  | .daily => .conditions
  | _ => .hourly

/-- Settings-mode Left successor switch in `handleButtons`. -/
def settingsLeftNext : Screen → Screen
  | .settings => .about
  | .about => .demo
  | .demo => .demo2
  | .demo2 => .demo3
  | .demo3 => .settings
  | _ => .settings

/-- Settings-mode Right successor switch in `handleButtons`. -/
def settingsRightNext : Screen → Screen
  | .settings => .demo3
  | .about => .settings
  | .demo => .about
  | .demo2 => .demo
  | .demo3 => .demo2
  | _ => .settings

/-- The auto page-switch successor: the `switch (currentScreen)` in `loop`.
It walks all nine screens in declaration order, regardless of mode. -/
def autoNext : Screen → Screen
  | .hourly => .hourly2
  | .hourly2 => .conditions
  | .conditions => .daily
  | .daily => .settings
  | .settings => .about
  | .about => .demo
  | .demo => .demo2
  | .demo2 => .demo3
  | .demo3 => .hourly

/-- The mutable globals of the source that the control loop reads or writes. -/
structure AppState where
  currentScreen : Screen
  settingsMode : Bool
  displayOn : Bool
  autoSwitch : Bool
  skipPush : Bool
  colonVisible : Bool
  lastUpdate : Nat
  lastPageSwitch : Nat
  lastColonUpdate : Nat
  lastButtonPress : Nat
  selectPressStart : Nat
  selectHeld : Bool
  longPressHandled : Bool
deriving DecidableEq, Repr

/-- Initial values of the globals. -/
def initState : AppState :=
  { currentScreen := .hourly
    settingsMode := false
    displayOn := true
    autoSwitch := false
    skipPush := false
    colonVisible := true
    lastUpdate := 0
    lastPageSwitch := 0
    lastColonUpdate := 0
    lastButtonPress := 0
    selectPressStart := 0
    selectHeld := false
    longPressHandled := false }

/-- Sampled button levels (`digitalRead(pin) == LOW`). -/
structure Buttons where
  left : Bool
  right : Bool
  select : Bool
deriving DecidableEq, Repr

/-- No button pressed. -/
def noBtn : Buttons := ⟨false, false, false⟩

/-- Only Left pressed. -/
def leftBtn : Buttons := ⟨true, false, false⟩

/-- Only Right pressed. -/
def rightBtn : Buttons := ⟨false, true, false⟩

/-- Only Select pressed. -/
def selBtn : Buttons := ⟨false, false, true⟩

/-- The transitions a tick can take (classified by the code path taken). -/
inductive Transition where
  | longPress
  | shortPress
  | wake
  | navLeft
  | navRight
  | autoAdvance
  | refresh
  | blink
deriving DecidableEq, Repr

/-- Transitions that change `currentScreen`, `settingsMode`, or `displayOn`. -/
def Transition.navChanging : Transition → Bool
  | .longPress | .shortPress | .wake | .navLeft | .navRight | .autoAdvance => true
  | .refresh | .blink => false

/-- Select-classified input events. -/
def Transition.isSelect : Transition → Bool
  | .longPress | .shortPress => true
  | _ => false

/-- The redraw scope a transition requests (which display call the code
makes on that path). -/
inductive Invalidation where
  | noRedraw
  | headerOnly
  | full
deriving DecidableEq, Repr

/-- The debounce / display-wake / Left-Right navigation section at the end
of `handleButtons` (reached when no Select event returned early). -/
def navSection (s : AppState) (now : Nat) (b : Buttons) :
    AppState × Option (Transition × Invalidation) :=
  if now - s.lastButtonPress < DEBOUNCE_DELAY then (s, none)
  else if s.displayOn = false ∧ (b.left = true ∨ b.right = true) then
    ({ s with lastButtonPress := now, displayOn := true,
              settingsMode := false, currentScreen := .hourly },
     some (.wake, .full))
  else if b.left = true ∨ b.right = true then
    let next :=
      if s.settingsMode = true then
        if b.left = true then settingsLeftNext s.currentScreen
        else settingsRightNext s.currentScreen
      else
        if b.left = true then weatherLeftNext s.currentScreen
        else weatherRightNext s.currentScreen
    ({ s with lastButtonPress := now, currentScreen := next,
              lastPageSwitch :=
                if next ≠ s.currentScreen then now else s.lastPageSwitch },
     some ((if b.left = true then .navLeft else .navRight),
           if next ≠ s.currentScreen then .full else .noRedraw))
  else (s, none)

/-- `handleButtons` of the source: Select long/short press classification
followed (on paths that do not `return`) by `navSection`. -/
def handleButtons (s : AppState) (now : Nat) (b : Buttons) :
    AppState × Option (Transition × Invalidation) :=
  if b.select = true then
    if s.selectHeld = false ∧ s.longPressHandled = false then
      navSection { s with selectPressStart := now, selectHeld := true } now b
    else if s.selectHeld = true ∧ now - s.selectPressStart ≥ LONG_PRESS_TIME then
      ({ s with selectHeld := false, longPressHandled := true,
                lastButtonPress := now,
                settingsMode := !s.settingsMode,
                currentScreen :=
                  if s.settingsMode = false then .settings else .hourly },
       some (.longPress, .full))
    else
      navSection s now b
  else
    if s.selectHeld = true ∧ now - s.selectPressStart < LONG_PRESS_TIME then
      if s.displayOn = false then
        ({ s with selectHeld := false, lastButtonPress := now,
                  displayOn := true, settingsMode := false,
                  currentScreen := .hourly },
         some (.shortPress, .full))
      else
        ({ s with selectHeld := false, lastButtonPress := now,
                  displayOn := false },
         some (.shortPress, .noRedraw))
    else
      navSection { s with selectHeld := false, longPressHandled := false } now b

/-- The auto page-switch block of `loop`. -/
def tickAuto (s : AppState) (now : Nat) :
    AppState × Option (Transition × Invalidation) :=
  if s.autoSwitch = true ∧ now - s.lastPageSwitch ≥ PAGE_SWITCH_INTERVAL then
    ({ s with currentScreen := autoNext s.currentScreen, lastPageSwitch := now },
     some (.autoAdvance, .full))
  else (s, none)

/-- The periodic weather refresh block of `loop` (the fetch result itself
does not touch navigation state; `displayScreen` runs only when the display
is on). -/
def tickRefresh (s : AppState) (now : Nat) :
    AppState × Option (Transition × Invalidation) :=
  if now - s.lastUpdate ≥ UPDATE_INTERVAL then
    ({ s with lastUpdate := now },
     some (.refresh, if s.displayOn then .full else .noRedraw))
  else (s, none)

/-- Header-bearing screens: the condition guarding the header redraw in the
colon-flash block of `loop`. -/
def Screen.hasHeader : Screen → Bool
  | .hourly | .hourly2 | .conditions | .daily => true
  | _ => false

/-- The colon-flash block of `loop`. -/
def tickBlink (s : AppState) (now : Nat) :
    AppState × Option (Transition × Invalidation) :=
  if s.displayOn = true ∧ now - s.lastColonUpdate ≥ COLON_FLASH_INTERVAL then
    ({ s with colonVisible := !s.colonVisible, lastColonUpdate := now },
     some (.blink,
           if s.currentScreen.hasHeader then .headerOnly else .noRedraw))
  else (s, none)

/-- Input of one `loop` iteration. -/
structure TickInput where
  now : Nat
  buttons : Buttons
deriving DecidableEq, Repr

/-- One iteration of `loop`: buttons, then auto page switch, then refresh,
then colon flash, collecting the transitions taken in program order. -/
def tick (s : AppState) (i : TickInput) :
    AppState × List (Transition × Invalidation) :=
  let r1 := handleButtons s i.now i.buttons
  let r2 := tickAuto r1.1 i.now
  let r3 := tickRefresh r2.1 i.now
  let r4 := tickBlink r3.1 i.now
  (r4.1, r1.2.toList ++ r2.2.toList ++ r3.2.toList ++ r4.2.toList)

/-- States reachable from boot by iterating `loop`. -/
inductive Reachable : AppState → Prop where
  | init : Reachable initState
  | step {s : AppState} (i : TickInput) : Reachable s → Reachable (tick s i).1

/-- Run `handleButtons` over a list of sampled ticks, collecting the fired
transitions with their timestamps. -/
def runButtons (s : AppState) : List (Nat × Buttons) → AppState × List (Nat × Transition)
  | [] => (s, [])
  | (now, b) :: rest =>
    let r := handleButtons s now b
    let r2 := runButtons r.1 rest
    (r2.1, (r.2.map (fun e => (now, e.1))).toList ++ r2.2)

/-- The fields of the global `WeatherData` struct that the render guards
read (`dataValid`, `hourlyCount`, `dailyCount`). -/
structure WeatherSnapshot where
  dataValid : Bool
  hourlyCount : Nat
  dailyCount : Nat
deriving DecidableEq, Repr

/-- Abstract render actions performed by the `display*` functions.
Per-screen body drawing is grouped into one action per layout block; the
claim-relevant structure (buffer clear, error placeholder, header, daily
grid cells, footer, indicator, buffer flush) is kept explicit. -/
inductive RenderAct where
  | clearSprite
  | errorPlaceholder (msg : String)
  | header
  | hourlyBody
  | hourRange (startIdx count yPos : Nat)
  | conditionsBody
  | dayCell (i : Nat)
  | footer
  | indicator
  | settingsBody
  | aboutBody
  | demoBody
  | demo2Body
  | demo3Body
  | pushSprite
deriving DecidableEq, Repr

/-- The trailing `if (!skipPush) sprite.pushSprite(0, 0);` of each
`display*` function. -/
def withPush (skipPush : Bool) (acts : List RenderAct) : List RenderAct :=
  if skipPush then acts else acts ++ [.pushSprite]

/-- `displayHourlyForecast`: clear, guard on
`!weather.dataValid || weather.hourlyCount == 0`, else full layout. -/
def displayHourlyForecast (w : WeatherSnapshot) (skipPush : Bool) : List RenderAct :=
  .clearSprite ::
    (if w.dataValid = false ∨ w.hourlyCount = 0 then
      [.errorPlaceholder "No Hourly Data!"]
    else
      withPush skipPush ([.header, .hourlyBody, .footer, .indicator]))

/-- `displayHourlyForecast2`: clear, guard on
`!weather.dataValid || weather.hourlyCount < 14`, else two hourly rows. -/
def displayHourlyForecast2 (w : WeatherSnapshot) (skipPush : Bool) : List RenderAct :=
  .clearSprite ::
    (if w.dataValid = false ∨ w.hourlyCount < 14 then
      [.errorPlaceholder "No Hourly Data!"]
    else
      withPush skipPush
        ([.header, .hourRange 1 7 40, .hourRange 8 7 130, .footer, .indicator]))

/-- `displayConditions`: clear, guard on `!weather.dataValid`, else the
conditions table. -/
def displayConditions (w : WeatherSnapshot) (skipPush : Bool) : List RenderAct :=
  .clearSprite ::
    (if w.dataValid = false then
      [.errorPlaceholder "No Data!"]
    else
      withPush skipPush ([.header, .conditionsBody, .footer, .indicator]))

/-- `displayDailyForecast`: clear, guard on
`!weather.dataValid || weather.dailyCount == 0`, else
`min(8, weather.dailyCount)` day cells. -/
def displayDailyForecast (w : WeatherSnapshot) (skipPush : Bool) : List RenderAct :=
  .clearSprite ::
    (if w.dataValid = false ∨ w.dailyCount = 0 then
      [.errorPlaceholder "No Daily Data!"]
    else
      withPush skipPush
        (.header :: (List.range (min 8 w.dailyCount)).map .dayCell
          ++ [.footer, .indicator]))

/-- `displaySettings` (no weather-data guard). -/
def displaySettings (skipPush : Bool) : List RenderAct :=
  .clearSprite :: withPush skipPush ([.settingsBody, .indicator])

/-- `displayAbout` (no weather-data guard). -/
def displayAbout (skipPush : Bool) : List RenderAct :=
  .clearSprite :: withPush skipPush ([.aboutBody, .indicator])

/-- `displayDemo` (no weather-data guard). -/
def displayDemo (skipPush : Bool) : List RenderAct :=
  .clearSprite :: withPush skipPush ([.demoBody, .indicator])

/-- `displayDemo2` (no weather-data guard). -/
def displayDemo2 (skipPush : Bool) : List RenderAct :=
  .clearSprite :: withPush skipPush ([.demo2Body, .indicator])

/-- `displayDemo3` (no weather-data guard). -/
def displayDemo3 (skipPush : Bool) : List RenderAct :=
  .clearSprite :: withPush skipPush ([.demo3Body, .indicator])

/-- `displayScreen`: dispatch on the screen. -/
def displayScreen (scr : Screen) (w : WeatherSnapshot) (skipPush : Bool) :
    List RenderAct :=
  match scr with
  | .hourly => displayHourlyForecast w skipPush
  | .hourly2 => displayHourlyForecast2 w skipPush
  | .conditions => displayConditions w skipPush
  | .daily => displayDailyForecast w skipPush
  | .settings => displaySettings skipPush
  | .about => displayAbout skipPush
  | .demo => displayDemo skipPush
  | .demo2 => displayDemo2 skipPush
  | .demo3 => displayDemo3 skipPush

/-- The data-sufficiency condition under which a screen takes its normal
(non-placeholder) layout path. -/
def snapshotOk (scr : Screen) (w : WeatherSnapshot) : Prop :=
  match scr with
  | .hourly => w.dataValid = true ∧ w.hourlyCount ≠ 0
  | .hourly2 => w.dataValid = true ∧ 14 ≤ w.hourlyCount
  | .conditions => w.dataValid = true
  | .daily => w.dataValid = true ∧ w.dailyCount ≠ 0
  | _ => True

instance (scr : Screen) (w : WeatherSnapshot) : Decidable (snapshotOk scr w) := by
  unfold snapshotOk
  cases scr <;> infer_instance

/-- The 16 compass direction strings of `degToCompass` in `helpers.h`. -/
def compassDirs : List String :=
  ["N", "NNE", "NE", "ENE", "E", "ESE", "SE", "SSE",
   "S", "SSW", "SW", "WSW", "W", "WNW", "NW", "NNW"]

/-- The index computation of `degToCompass`: `((deg + 11) / 22) % 16` with
C++ `int` semantics (truncating division and remainder). -/
def degToCompassIdx (deg : Int) : Int :=
  Int.tmod ((deg + 11).tdiv 22) 16

/-- `degToCompass` of `helpers.h`; the array access is rendered as `List.getD`
(the in-bounds theorem shows the default is never consulted on the claimed
domain). -/
def degToCompass (deg : Int) : String :=
  compassDirs.getD (degToCompassIdx deg).toNat ""

/-- A Select press-and-release cycle sampled at every millisecond: the
button reads pressed at times `t0, t0+1, …, t0+d-1` and released at
`t0+d`; Left and Right stay released throughout. -/
def selCycle (t0 d : Nat) : List (Nat × Buttons) :=
  (List.range' t0 d).map (fun t => (t, selBtn)) ++ [(t0 + d, noBtn)]

/-- The mode/screen consistency predicate of the spec's data-model
invariant. -/
def modeInv (s : AppState) : Prop :=
  s.currentScreen ∈ modeScreens s.settingsMode

/-- The inductive invariant of the control loop: `autoSwitch` and
`skipPush` are never assigned after initialization, and the screen stays
within the current mode's set. -/
def LoopInv (s : AppState) : Prop :=
  s.autoSwitch = false ∧ s.skipPush = false ∧ modeInv s

/-- Whether an emitted event is a state-changing transition. -/
def navChangingEv (e : Transition × Invalidation) : Bool :=
  e.1.navChanging

/-- A Weather-mode state sitting on the Daily screen with auto page switch
enabled (the configuration the auto-advance contract quantifies over). -/
def c2State : AppState :=
  { initState with autoSwitch := true, currentScreen := .daily }

/-- An idle tick at 5000 ms (auto-advance due, refresh not due). -/
def c2Input : TickInput := ⟨5000, noBtn⟩

lemma navSection_frame (s : AppState) (now : Nat) (b : Buttons) :
    (navSection s now b).1.autoSwitch = s.autoSwitch ∧
    (navSection s now b).1.skipPush = s.skipPush ∧
    (navSection s now b).1.selectHeld = s.selectHeld ∧
    (navSection s now b).1.longPressHandled = s.longPressHandled := by
  unfold navSection
  split
  · exact ⟨rfl, rfl, rfl, rfl⟩
  split
  · exact ⟨rfl, rfl, rfl, rfl⟩
  split
  · exact ⟨rfl, rfl, rfl, rfl⟩
  · exact ⟨rfl, rfl, rfl, rfl⟩

lemma handleButtons_frame (s : AppState) (now : Nat) (b : Buttons) :
    (handleButtons s now b).1.autoSwitch = s.autoSwitch ∧
    (handleButtons s now b).1.skipPush = s.skipPush := by
  unfold handleButtons
  split
  · split
    · exact ⟨(navSection_frame _ _ _).1, (navSection_frame _ _ _).2.1⟩
    split
    · exact ⟨rfl, rfl⟩
    · exact ⟨(navSection_frame _ _ _).1, (navSection_frame _ _ _).2.1⟩
  · split
    · split
      · exact ⟨rfl, rfl⟩
      · exact ⟨rfl, rfl⟩
    · exact ⟨(navSection_frame _ _ _).1, (navSection_frame _ _ _).2.1⟩

lemma settingsLeftNext_mem (scr : Screen) : settingsLeftNext scr ∈ settingsScreens := by
  cases scr <;> decide

lemma settingsRightNext_mem (scr : Screen) : settingsRightNext scr ∈ settingsScreens := by
  cases scr <;> decide

lemma weatherLeftNext_mem (scr : Screen) : weatherLeftNext scr ∈ weatherScreens := by
  cases scr <;> decide

lemma weatherRightNext_mem (scr : Screen) : weatherRightNext scr ∈ weatherScreens := by
  cases scr <;> decide

lemma navSection_modeInv (s : AppState) (now : Nat) (b : Buttons)
    (h : modeInv s) : modeInv (navSection s now b).1 := by
  unfold navSection
  split
  · exact h
  split
  · simp [modeInv, modeScreens, weatherScreens]
  split
  · show modeInv _
    unfold modeInv modeScreens
    cases hm : s.settingsMode <;> cases hl : b.left <;>
      simp [hm, hl, settingsLeftNext_mem, settingsRightNext_mem,
        weatherLeftNext_mem, weatherRightNext_mem]
  · exact h

lemma handleButtons_modeInv (s : AppState) (now : Nat) (b : Buttons)
    (h : modeInv s) : modeInv (handleButtons s now b).1 := by
  unfold handleButtons
  split
  · split
    · exact navSection_modeInv _ _ _ h
    split
    · show modeInv _
      unfold modeInv modeScreens
      cases hm : s.settingsMode <;> simp [hm, settingsScreens, weatherScreens]
    · exact navSection_modeInv _ _ _ h
  · split
    · split
      · simp [modeInv, modeScreens, weatherScreens]
      · exact h
    · exact navSection_modeInv _ _ _ h

lemma tickAuto_off (s : AppState) (now : Nat) (h : s.autoSwitch = false) :
    tickAuto s now = (s, none) := by
  simp [tickAuto, h]

lemma tickRefresh_frame (s : AppState) (now : Nat) :
    (tickRefresh s now).1.currentScreen = s.currentScreen ∧
    (tickRefresh s now).1.settingsMode = s.settingsMode ∧
    (tickRefresh s now).1.autoSwitch = s.autoSwitch ∧
    (tickRefresh s now).1.skipPush = s.skipPush ∧
    (tickRefresh s now).1.displayOn = s.displayOn ∧
    (tickRefresh s now).1.lastPageSwitch = s.lastPageSwitch := by
  unfold tickRefresh
  split
  · exact ⟨rfl, rfl, rfl, rfl, rfl, rfl⟩
  · exact ⟨rfl, rfl, rfl, rfl, rfl, rfl⟩

lemma tickBlink_frame (s : AppState) (now : Nat) :
    (tickBlink s now).1.currentScreen = s.currentScreen ∧
    (tickBlink s now).1.settingsMode = s.settingsMode ∧
    (tickBlink s now).1.autoSwitch = s.autoSwitch ∧
    (tickBlink s now).1.skipPush = s.skipPush ∧
    (tickBlink s now).1.displayOn = s.displayOn ∧
    (tickBlink s now).1.lastPageSwitch = s.lastPageSwitch := by
  unfold tickBlink
  split
  · exact ⟨rfl, rfl, rfl, rfl, rfl, rfl⟩
  · exact ⟨rfl, rfl, rfl, rfl, rfl, rfl⟩

lemma modeInv_of_eq {s t : AppState} (h1 : t.currentScreen = s.currentScreen)
    (h2 : t.settingsMode = s.settingsMode) (h : modeInv s) : modeInv t := by
  unfold modeInv at h ⊢
  rw [h1, h2]
  exact h

lemma loopInv_tick {s : AppState} (h : LoopInv s) (i : TickInput) :
    LoopInv (tick s i).1 := by
  obtain ⟨hauto, hskip, hmode⟩ := h
  show LoopInv
    (tickBlink (tickRefresh (tickAuto (handleButtons s i.now i.buttons).1 i.now).1
      i.now).1 i.now).1
  have h1a : (handleButtons s i.now i.buttons).1.autoSwitch = false :=
    (handleButtons_frame s i.now i.buttons).1.trans hauto
  have h1s : (handleButtons s i.now i.buttons).1.skipPush = false :=
    (handleButtons_frame s i.now i.buttons).2.trans hskip
  have h1m : modeInv (handleButtons s i.now i.buttons).1 :=
    handleButtons_modeInv s i.now i.buttons hmode
  rw [tickAuto_off _ _ h1a]
  refine ⟨?_, ?_, ?_⟩
  · exact ((tickBlink_frame _ _).2.2.1.trans (tickRefresh_frame _ _).2.2.1).trans h1a
  · exact ((tickBlink_frame _ _).2.2.2.1.trans (tickRefresh_frame _ _).2.2.2.1).trans h1s
  · exact modeInv_of_eq (tickBlink_frame _ _).1 (tickBlink_frame _ _).2.1
      (modeInv_of_eq (tickRefresh_frame _ _).1 (tickRefresh_frame _ _).2.1 h1m)

lemma reachable_loopInv {s : AppState} (h : Reachable s) : LoopInv s := by
  induction h with
  | init =>
    refine ⟨rfl, rfl, ?_⟩
    show initState.currentScreen ∈ modeScreens initState.settingsMode
    decide
  | step i _ ih => exact loopInv_tick ih i

lemma navSection_event (s : AppState) (now : Nat) (b : Buttons) :
    ∀ e ∈ (navSection s now b).2.toList,
      e.1 = Transition.wake ∨ e.1 = Transition.navLeft ∨ e.1 = Transition.navRight := by
  unfold navSection
  split
  · simp [Option.toList]
  split
  · simp [Option.toList]
  split
  · intro e he
    simp only [Option.toList, List.mem_singleton] at he
    subst he
    split <;> simp
  · simp [Option.toList]

lemma handleButtons_event (s : AppState) (now : Nat) (b : Buttons) :
    ∀ e ∈ (handleButtons s now b).2.toList,
      e.1 = Transition.longPress ∨ e.1 = Transition.shortPress ∨
      e.1 = Transition.wake ∨ e.1 = Transition.navLeft ∨ e.1 = Transition.navRight := by
  unfold handleButtons
  split
  · split
    · intro e he
      rcases navSection_event _ _ _ e he with h | h | h <;> simp [h]
    split
    · simp [Option.toList]
    · intro e he
      rcases navSection_event _ _ _ e he with h | h | h <;> simp [h]
  · split
    · split
      · simp [Option.toList]
      · simp [Option.toList]
    · intro e he
      rcases navSection_event _ _ _ e he with h | h | h <;> simp [h]

lemma tickRefresh_event (s : AppState) (now : Nat) :
    ∀ e ∈ (tickRefresh s now).2.toList, e.1 = Transition.refresh := by
  unfold tickRefresh
  split <;> simp [Option.toList]

lemma tickBlink_event (s : AppState) (now : Nat) :
    ∀ e ∈ (tickBlink s now).2.toList, e.1 = Transition.blink := by
  unfold tickBlink
  split <;> simp [Option.toList]

lemma tick_events {s : AppState} (i : TickInput) (hA : s.autoSwitch = false) :
    (tick s i).2 =
      (handleButtons s i.now i.buttons).2.toList ++
      (tickRefresh (handleButtons s i.now i.buttons).1 i.now).2.toList ++
      (tickBlink (tickRefresh (handleButtons s i.now i.buttons).1 i.now).1
        i.now).2.toList := by
  have h1a : (handleButtons s i.now i.buttons).1.autoSwitch = false :=
    (handleButtons_frame s i.now i.buttons).1.trans hA
  have h2 : tickAuto (handleButtons s i.now i.buttons).1 i.now =
      ((handleButtons s i.now i.buttons).1, none) := tickAuto_off _ _ h1a
  show ((handleButtons s i.now i.buttons).2.toList ++
      (tickAuto (handleButtons s i.now i.buttons).1 i.now).2.toList ++
      (tickRefresh (tickAuto (handleButtons s i.now i.buttons).1 i.now).1 i.now).2.toList ++
      (tickBlink (tickRefresh (tickAuto (handleButtons s i.now i.buttons).1 i.now).1
        i.now).1 i.now).2.toList) = _
  rw [h2]
  simp [Option.toList]

/-- C1: in every reachable state of the control loop — hence after every
transition (button press, long-press mode toggle, auto-advance, refresh,
blink) — the current screen is a member of the screen set associated with
the current mode (Weather: {Hourly, Hourly2, Conditions, Daily}; Settings:
{Settings, About, Demo, Demo2, Demo3}). -/
theorem c1_screen_in_mode_set (s : AppState) (h : Reachable s) :
    s.currentScreen ∈ modeScreens s.settingsMode :=
  (reachable_loopInv h).2.2

/-- Witness for C1 at the initial state. -/
theorem c1_witness :
    initState.currentScreen ∈ modeScreens initState.settingsMode :=
  c1_screen_in_mode_set initState Reachable.init

/-- C3: in every tick taken from a reachable state, at most one
state-changing transition (change of `currentScreen`, `settingsMode`, or
`displayOn`) occurs, and a Select event in a tick precludes an
auto-advance screen change in that same tick. -/
theorem c3_single_transition_per_tick (s : AppState) (h : Reachable s) (i : TickInput) :
    ((tick s i).2.filter navChangingEv).length ≤ 1 ∧
    (∀ e ∈ (tick s i).2, e.1.isSelect = true →
      ∀ e2 ∈ (tick s i).2, e2.1 ≠ Transition.autoAdvance) := by
  have hA : s.autoSwitch = false := (reachable_loopInv h).1
  rw [tick_events i hA]
  constructor
  · rw [List.filter_append, List.filter_append]
    have h3 : ((tickRefresh (handleButtons s i.now i.buttons).1 i.now).2.toList.filter
        navChangingEv) = [] := by
      rw [List.filter_eq_nil_iff]
      intro e he
      have := tickRefresh_event _ _ e he
      simp [navChangingEv, this, Transition.navChanging]
    have h4 : ((tickBlink (tickRefresh (handleButtons s i.now i.buttons).1 i.now).1
        i.now).2.toList.filter navChangingEv) = [] := by
      rw [List.filter_eq_nil_iff]
      intro e he
      have := tickBlink_event _ _ e he
      simp [navChangingEv, this, Transition.navChanging]
    rw [h3, h4, List.append_nil, List.append_nil]
    calc ((handleButtons s i.now i.buttons).2.toList.filter navChangingEv).length
        ≤ (handleButtons s i.now i.buttons).2.toList.length := List.length_filter_le _ _
      _ ≤ 1 := by cases (handleButtons s i.now i.buttons).2 <;> simp [Option.toList]
  · intro e _ _ e2 he2
    rcases List.mem_append.1 he2 with h12 | h4
    · rcases List.mem_append.1 h12 with h1 | h3
      · rcases handleButtons_event _ _ _ e2 h1 with h | h | h | h | h <;> simp [h]
      · simp [tickRefresh_event _ _ e2 h3]
    · simp [tickBlink_event _ _ e2 h4]

/-- Witness for C3 at the initial state with an idle tick. -/
theorem c3_witness :
    ((tick initState ⟨0, noBtn⟩).2.filter navChangingEv).length ≤ 1 :=
  (c3_single_transition_per_tick initState Reachable.init ⟨0, noBtn⟩).1

/-- C9: `skipPush` is false in every reachable state (it is initialized to
false and never assigned), so every display function that completes its
full-screen layout ends by flushing the offscreen buffer via `pushSprite`. -/
theorem c9_skipPush_always_false (s : AppState) (h : Reachable s)
    (scr : Screen) (w : WeatherSnapshot) (hok : snapshotOk scr w) :
    s.skipPush = false ∧
    (displayScreen scr w s.skipPush).getLast? = some RenderAct.pushSprite := by
  have hs : s.skipPush = false := (reachable_loopInv h).2.1
  refine ⟨hs, ?_⟩
  rw [hs]
  cases scr <;>
    simp only [snapshotOk] at hok <;>
    simp only [displayScreen, displayHourlyForecast, displayHourlyForecast2,
      displayConditions, displayDailyForecast, displaySettings, displayAbout,
      displayDemo, displayDemo2, displayDemo3, withPush, if_neg, if_pos,
      Bool.false_eq_true, ite_false]
  case hourly =>
    rw [if_neg (by simp [hok.1, hok.2])]
    rw [← List.cons_append]
    exact List.getLast?_concat _
  case hourly2 =>
    rw [if_neg (by simp [hok.1]; omega)]
    rw [← List.cons_append]
    exact List.getLast?_concat _
  case conditions =>
    rw [if_neg (by simp [hok])]
    rw [← List.cons_append]
    exact List.getLast?_concat _
  case daily =>
    rw [if_neg (by simp [hok.1, hok.2])]
    rw [← List.cons_append]
    exact List.getLast?_concat _
  case settings =>
    rw [← List.cons_append]
    exact List.getLast?_concat _
  case about =>
    rw [← List.cons_append]
    exact List.getLast?_concat _
  case demo =>
    rw [← List.cons_append]
    exact List.getLast?_concat _
  case demo2 =>
    rw [← List.cons_append]
    exact List.getLast?_concat _
  case demo3 =>
    rw [← List.cons_append]
    exact List.getLast?_concat _

/-- Witness for C9 at the initial state rendering the Daily screen on a
valid snapshot. -/
theorem c9_witness :
    initState.skipPush = false ∧
    (displayScreen Screen.daily ⟨true, 24, 8⟩ initState.skipPush).getLast? =
      some RenderAct.pushSprite :=
  c9_skipPush_always_false initState Reachable.init Screen.daily ⟨true, 24, 8⟩
    (by constructor <;> decide)

/-- C2 counterexample: with auto page switch enabled, mode = Weather and
screen = Daily, an elapsed auto-advance tick moves to Settings, while an
accepted Left press from the same (mode, screen) moves to Hourly — the
auto-advance successor is not Left's successor. -/
theorem c2_counterexample :
    (Transition.autoAdvance, Invalidation.full) ∈ (tick c2State c2Input).2 ∧
    (tick c2State c2Input).1.currentScreen = Screen.settings ∧
    (handleButtons c2State 5000 leftBtn).2 =
      some (Transition.navLeft, Invalidation.full) ∧
    (handleButtons c2State 5000 leftBtn).1.currentScreen = Screen.hourly ∧
    Screen.settings ≠ Screen.hourly := by
  decide

/-- C2 amended: whenever the auto page switch is enabled and its timer is
due after `handleButtons` ran (regardless of whether a button event fired
this tick), the screen advances to the next screen of the fixed nine-screen
cycle `autoNext` — which ignores the current mode and differs from Left's
successor at Daily and Demo3 — with a full redraw, and the auto-advance
timer is reset. -/
theorem c2_auto_advance_behaviour (s : AppState) (i : TickInput)
    (hA : (handleButtons s i.now i.buttons).1.autoSwitch = true)
    (hdue : PAGE_SWITCH_INTERVAL ≤
      i.now - (handleButtons s i.now i.buttons).1.lastPageSwitch) :
    (tick s i).1.currentScreen =
      autoNext (handleButtons s i.now i.buttons).1.currentScreen ∧
    (tick s i).1.lastPageSwitch = i.now ∧
    (Transition.autoAdvance, Invalidation.full) ∈ (tick s i).2 := by
  have h2 : tickAuto (handleButtons s i.now i.buttons).1 i.now =
      ({ (handleButtons s i.now i.buttons).1 with
          currentScreen := autoNext (handleButtons s i.now i.buttons).1.currentScreen,
          lastPageSwitch := i.now },
       some (.autoAdvance, .full)) := by
    unfold tickAuto
    rw [if_pos ⟨hA, hdue⟩]
  refine ⟨?_, ?_, ?_⟩
  · show (tickBlink (tickRefresh (tickAuto (handleButtons s i.now i.buttons).1
        i.now).1 i.now).1 i.now).1.currentScreen = _
    rw [(tickBlink_frame _ _).1, (tickRefresh_frame _ _).1, h2]
  · show (tickBlink (tickRefresh (tickAuto (handleButtons s i.now i.buttons).1
        i.now).1 i.now).1 i.now).1.lastPageSwitch = _
    rw [(tickBlink_frame _ _).2.2.2.2.2, (tickRefresh_frame _ _).2.2.2.2.2, h2]
  · show (Transition.autoAdvance, Invalidation.full) ∈
      (handleButtons s i.now i.buttons).2.toList ++
      (tickAuto (handleButtons s i.now i.buttons).1 i.now).2.toList ++ _ ++ _
    rw [h2]
    simp [Option.toList]

/-- Witness for C2's amended theorem at the concrete counterexample state. -/
theorem c2_witness :
    (tick c2State c2Input).1.currentScreen =
      autoNext (handleButtons c2State c2Input.now c2Input.buttons).1.currentScreen ∧
    (tick c2State c2Input).1.lastPageSwitch = c2Input.now ∧
    (Transition.autoAdvance, Invalidation.full) ∈ (tick c2State c2Input).2 :=
  c2_auto_advance_behaviour c2State c2Input (by decide) (by decide)

/-- C4 counterexample: Left reads pressed at t = 300 and is still pressed
(no release, hence no new falling edge) at t = 600, yet a second navigation
event fires and the screen advances again — Left/Right are level-triggered,
not edge-triggered. -/
theorem c4_counterexample :
    (runButtons initState [(300, leftBtn), (600, leftBtn)]).2 =
      [(300, Transition.navLeft), (600, Transition.navLeft)] ∧
    (runButtons initState [(300, leftBtn), (600, leftBtn)]).1.currentScreen =
      Screen.conditions := by
  decide

lemma nav_next_ne (m l : Bool) (scr : Screen) :
    (if m = true then
        if l = true then settingsLeftNext scr else settingsRightNext scr
      else
        if l = true then weatherLeftNext scr else weatherRightNext scr) ≠ scr := by
  cases m <;> cases l <;> cases scr <;> decide

lemma update_selectReset {s : AppState} (h1 : s.selectHeld = false)
    (h2 : s.longPressHandled = false) :
    ({ s with selectHeld := false, longPressHandled := false } : AppState) = s := by
  cases s
  simp_all

/-- C4 amended: Left/Right are level-triggered with a 200 ms debounce shared
across all three controls: on a tick where the button level reads pressed,
an event fires exactly when at least 200 ms have elapsed since the last
accepted event on any control (so a continuously held button re-fires each
time the window expires); inside the window the press is swallowed with no
event and no state change. -/
theorem c4_level_triggered_debounce (s : AppState) (now : Nat) (b : Buttons)
    (hsel : b.select = false) (hheld : s.selectHeld = false)
    (hlph : s.longPressHandled = false) (hon : s.displayOn = true)
    (hlr : b.left = true ∨ b.right = true) :
    (now - s.lastButtonPress < DEBOUNCE_DELAY →
      handleButtons s now b = (s, none)) ∧
    (DEBOUNCE_DELAY ≤ now - s.lastButtonPress →
      (handleButtons s now b).2 =
        some ((if b.left = true then Transition.navLeft else Transition.navRight),
              Invalidation.full) ∧
      (handleButtons s now b).1.lastButtonPress = now) := by
  have hb : handleButtons s now b = navSection s now b := by
    unfold handleButtons
    rw [if_neg (by simp [hsel]), if_neg (by simp [hheld]), update_selectReset hheld hlph]
  constructor
  · intro hlt
    rw [hb]
    unfold navSection
    rw [if_pos hlt]
  · intro hge
    rw [hb]
    unfold navSection
    rw [if_neg (by omega), if_neg (by simp [hon]), if_pos hlr]
    refine ⟨?_, rfl⟩
    simp only [nav_next_ne, ne_eq, not_false_eq_true, if_true]

/-- Witness for C4's amended theorem: an accepted Left press at t = 300 from
the initial state. -/
theorem c4_witness :
    (300 - initState.lastButtonPress < DEBOUNCE_DELAY →
      handleButtons initState 300 leftBtn = (initState, none)) ∧
    (DEBOUNCE_DELAY ≤ 300 - initState.lastButtonPress →
      (handleButtons initState 300 leftBtn).2 =
        some ((if leftBtn.left = true then Transition.navLeft else Transition.navRight),
              Invalidation.full) ∧
      (handleButtons initState 300 leftBtn).1.lastButtonPress = 300) :=
  c4_level_triggered_debounce initState 300 leftBtn rfl rfl rfl rfl (Or.inl rfl)

/-- C6: when the snapshot is invalid (or a screen's data is insufficient:
fewer than 14 hourly points for the extended-hours screen, zero daily
points for Daily), each weather-data screen renders exactly the buffer
clear followed by its fixed "no data" placeholder — none of its normal
layout, and in particular Daily is a placeholder, not a 0-day grid. -/
theorem c6_invalid_snapshot_placeholder (w : WeatherSnapshot) (sp : Bool) :
    (w.dataValid = false →
      displayHourlyForecast w sp =
        [.clearSprite, .errorPlaceholder "No Hourly Data!"] ∧
      displayHourlyForecast2 w sp =
        [.clearSprite, .errorPlaceholder "No Hourly Data!"] ∧
      displayConditions w sp = [.clearSprite, .errorPlaceholder "No Data!"] ∧
      displayDailyForecast w sp =
        [.clearSprite, .errorPlaceholder "No Daily Data!"]) ∧
    (w.hourlyCount = 0 →
      displayHourlyForecast w sp =
        [.clearSprite, .errorPlaceholder "No Hourly Data!"]) ∧
    (w.hourlyCount < 14 →
      displayHourlyForecast2 w sp =
        [.clearSprite, .errorPlaceholder "No Hourly Data!"]) ∧
    (w.dailyCount = 0 →
      displayDailyForecast w sp =
        [.clearSprite, .errorPlaceholder "No Daily Data!"]) := by
  refine ⟨fun h => ⟨?_, ?_, ?_, ?_⟩, fun h => ?_, fun h => ?_, fun h => ?_⟩ <;>
    simp [displayHourlyForecast, displayHourlyForecast2, displayConditions,
      displayDailyForecast, h]

/-- Witness for C6: an invalid snapshot renders the Daily placeholder. -/
theorem c6_witness :
    displayDailyForecast ⟨false, 24, 8⟩ false =
      [.clearSprite, .errorPlaceholder "No Daily Data!"] :=
  ((c6_invalid_snapshot_placeholder ⟨false, 24, 8⟩ false).1 rfl).2.2.2

/-- C7: with the display off, an accepted Left or Right press (no Select
activity this tick) turns the display on, resets the screen to Hourly and
the mode to Weather with a full redraw, and performs no further navigation:
the handler returns with exactly the wake transition. -/
theorem c7_wake_on_press (s : AppState) (now : Nat) (b : Buttons)
    (hoff : s.displayOn = false) (hheld : s.selectHeld = false)
    (hsel : b.select = false) (hlr : b.left = true ∨ b.right = true)
    (hdeb : DEBOUNCE_DELAY ≤ now - s.lastButtonPress) :
    (handleButtons s now b).1.displayOn = true ∧
    (handleButtons s now b).1.currentScreen = Screen.hourly ∧
    (handleButtons s now b).1.settingsMode = false ∧
    (handleButtons s now b).2 = some (Transition.wake, Invalidation.full) := by
  have hb : handleButtons s now b =
      navSection { s with selectHeld := false, longPressHandled := false } now b := by
    unfold handleButtons
    rw [if_neg (by simp [hsel]), if_neg (by simp [hheld])]
  rw [hb]
  unfold navSection
  rw [if_neg (by simp only [DEBOUNCE_DELAY] at hdeb ⊢; omega),
    if_pos (by exact ⟨hoff, hlr⟩)]
  exact ⟨rfl, rfl, rfl, rfl⟩

/-- Witness for C7: Left pressed at t = 300 with the display off. -/
theorem c7_witness :
    (handleButtons { initState with displayOn := false } 300 leftBtn).1.displayOn = true ∧
    (handleButtons { initState with displayOn := false } 300 leftBtn).1.currentScreen =
      Screen.hourly ∧
    (handleButtons { initState with displayOn := false } 300 leftBtn).1.settingsMode =
      false ∧
    (handleButtons { initState with displayOn := false } 300 leftBtn).2 =
      some (Transition.wake, Invalidation.full) :=
  c7_wake_on_press { initState with displayOn := false } 300 leftBtn rfl rfl rfl
    (Or.inl rfl) (by decide)

/-- C8: from the initial state {Hourly, Weather, display on}, four
consecutive accepted Left presses (and likewise four accepted Right
presses) return the screen to Hourly, and Right undoes Left on every
Weather-mode screen. -/
theorem c8_weather_nav_four_cycle :
    (runButtons initState
      [(300, leftBtn), (600, leftBtn), (900, leftBtn), (1200, leftBtn)]).1.currentScreen =
      Screen.hourly ∧
    (runButtons initState
      [(300, rightBtn), (600, rightBtn), (900, rightBtn), (1200, rightBtn)]).1.currentScreen =
      Screen.hourly ∧
    weatherRightNext (weatherLeftNext .hourly) = .hourly ∧
    weatherRightNext (weatherLeftNext .hourly2) = .hourly2 ∧
    weatherRightNext (weatherLeftNext .conditions) = .conditions ∧
    weatherRightNext (weatherLeftNext .daily) = .daily ∧
    weatherLeftNext (weatherRightNext .hourly) = .hourly ∧
    weatherLeftNext (weatherRightNext .hourly2) = .hourly2 ∧
    weatherLeftNext (weatherRightNext .conditions) = .conditions ∧
    weatherLeftNext (weatherRightNext .daily) = .daily := by
  decide

/-- C10: for every integer 0 ≤ deg ≤ 360, the `degToCompass` index
`((deg + 11) / 22) % 16` (C++ `int` division and remainder) lies in
[0, 16), the result is one of the 16 fixed compass strings, and both 0 and
360 map to "N". -/
theorem c10_degToCompass_safe (deg : Int) (h0 : 0 ≤ deg) (h1 : deg ≤ 360) :
    (0 ≤ degToCompassIdx deg ∧ degToCompassIdx deg < 16) ∧
    degToCompass deg ∈ compassDirs ∧
    degToCompass 0 = "N" ∧ degToCompass 360 = "N" := by
  have hq : 0 ≤ (deg + 11).tdiv 22 := Int.tdiv_nonneg (by omega) (by norm_num)
  have hmod : degToCompassIdx deg = ((deg + 11).tdiv 22) % 16 := by
    unfold degToCompassIdx
    rw [Int.tmod_eq_emod hq (by norm_num)]
  have hnn : 0 ≤ degToCompassIdx deg := by
    rw [hmod]
    exact Int.emod_nonneg _ (by norm_num)
  have hlt : degToCompassIdx deg < 16 := by
    rw [hmod]
    exact Int.emod_lt_of_pos _ (by norm_num)
  refine ⟨⟨hnn, hlt⟩, ?_, by decide, by decide⟩
  have hlen : (degToCompassIdx deg).toNat < compassDirs.length := by
    have : (degToCompassIdx deg).toNat < 16 := by omega
    simpa [compassDirs] using this
  unfold degToCompass
  rw [List.getD_eq_getElem _ _ hlen]
  exact List.getElem_mem _

/-- Witness for C10 at deg = 45. -/
theorem c10_witness :
    (0 ≤ degToCompassIdx 45 ∧ degToCompassIdx 45 < 16) ∧
    degToCompass 45 ∈ compassDirs ∧
    degToCompass 0 = "N" ∧ degToCompass 360 = "N" :=
  c10_degToCompass_safe 45 (by decide) (by decide)

lemma navSection_noLR (s : AppState) (now : Nat) (b : Buttons)
    (hl : b.left = false) (hr : b.right = false) :
    navSection s now b = (s, none) := by
  unfold navSection
  split
  · rfl
  rw [if_neg (by simp [hl, hr]), if_neg (by simp [hl, hr])]

lemma runButtons_nil (s : AppState) : runButtons s [] = (s, []) := rfl

lemma runButtons_cons (s : AppState) (now : Nat) (b : Buttons)
    (rest : List (Nat × Buttons)) :
    runButtons s ((now, b) :: rest) =
      ((runButtons (handleButtons s now b).1 rest).1,
       ((handleButtons s now b).2.map (fun e => (now, e.1))).toList ++
         (runButtons (handleButtons s now b).1 rest).2) := rfl

lemma runButtons_append (s : AppState) (xs ys : List (Nat × Buttons)) :
    runButtons s (xs ++ ys) =
      ((runButtons (runButtons s xs).1 ys).1,
       (runButtons s xs).2 ++ (runButtons (runButtons s xs).1 ys).2) := by
  induction xs generalizing s with
  | nil => simp [runButtons]
  | cons x xs ih =>
    obtain ⟨now, b⟩ := x
    simp [runButtons, ih, List.append_assoc]

lemma handleButtons_selHold (s : AppState) (a : Nat) (hh : s.selectHeld = true)
    (ha : a < s.selectPressStart + LONG_PRESS_TIME) :
    handleButtons s a selBtn = (s, none) := by
  unfold handleButtons
  rw [if_pos (show selBtn.select = true from rfl), if_neg (by simp [hh]),
    if_neg (by rintro ⟨_, h800⟩; simp only [LONG_PRESS_TIME] at ha h800; omega)]
  exact navSection_noLR _ _ _ rfl rfl

lemma runButtons_selHold (k : Nat) : ∀ (a : Nat) (s : AppState),
    s.selectHeld = true → a + k ≤ s.selectPressStart + LONG_PRESS_TIME →
    runButtons s ((List.range' a k).map fun t => (t, selBtn)) = (s, []) := by
  induction k with
  | zero => intro a s _ _; simp [runButtons]
  | succ k ih =>
    intro a s hh hk
    rw [List.range'_succ, List.map_cons]
    have hstep : handleButtons s a selBtn = (s, none) :=
      handleButtons_selHold s a hh (by omega)
    simp [runButtons, hstep, ih (a + 1) s hh (by omega)]

lemma handleButtons_selSuppressed (s : AppState) (a : Nat)
    (hh : s.selectHeld = false) (hl : s.longPressHandled = true) :
    handleButtons s a selBtn = (s, none) := by
  unfold handleButtons
  rw [if_pos (show selBtn.select = true from rfl), if_neg (by simp [hl]),
    if_neg (by simp [hh])]
  exact navSection_noLR _ _ _ rfl rfl

lemma runButtons_selSuppressed (k : Nat) : ∀ (a : Nat) (s : AppState),
    s.selectHeld = false → s.longPressHandled = true →
    runButtons s ((List.range' a k).map fun t => (t, selBtn)) = (s, []) := by
  induction k with
  | zero => intro a s _ _; simp [runButtons]
  | succ k ih =>
    intro a s hh hl
    rw [List.range'_succ, List.map_cons]
    have hstep : handleButtons s a selBtn = (s, none) :=
      handleButtons_selSuppressed s a hh hl
    simp [runButtons, hstep, ih (a + 1) s hh hl]

/-- The state right after the Select press start is recorded. -/
def selMidState (s : AppState) (t0 : Nat) : AppState :=
  { s with selectPressStart := t0, selectHeld := true }

/-- The state right after the Select long press fires at `t0 + 800`. -/
def selLongState (s : AppState) (t0 : Nat) : AppState :=
  { s with selectPressStart := t0, selectHeld := false,
           longPressHandled := true, lastButtonPress := t0 + LONG_PRESS_TIME,
           settingsMode := !s.settingsMode,
           currentScreen := if s.settingsMode = false then .settings else .hourly }

lemma handleButtons_selStart (s : AppState) (t0 : Nat)
    (hh : s.selectHeld = false) (hl : s.longPressHandled = false) :
    handleButtons s t0 selBtn = (selMidState s t0, none) := by
  unfold handleButtons
  rw [if_pos (show selBtn.select = true from rfl), if_pos ⟨hh, hl⟩]
  exact navSection_noLR _ _ _ rfl rfl

lemma handleButtons_selLong (s : AppState) (t0 : Nat) :
    handleButtons (selMidState s t0) (t0 + LONG_PRESS_TIME) selBtn =
      (selLongState s t0, some (.longPress, .full)) := by
  unfold handleButtons
  rw [if_pos (show selBtn.select = true from rfl), if_neg (by simp [selMidState]),
    if_pos (show (selMidState s t0).selectHeld = true ∧
      t0 + LONG_PRESS_TIME - (selMidState s t0).selectPressStart ≥ LONG_PRESS_TIME from
      ⟨rfl, by show t0 + LONG_PRESS_TIME - t0 ≥ LONG_PRESS_TIME; omega⟩)]
  rfl

lemma runButtons_selChainLong (s s' : AppState) (t0 tR : Nat) (l1 l2 : List Nat)
    (hh : s.selectHeld = false) (hl : s.longPressHandled = false)
    (h1 : runButtons (selMidState s t0) (l1.map fun t => (t, selBtn)) =
      (selMidState s t0, []))
    (h3 : runButtons (selLongState s t0) (l2.map fun t => (t, selBtn)) =
      (selLongState s t0, []))
    (hrel : handleButtons (selLongState s t0) tR noBtn = (s', none)) :
    (runButtons s
      (((t0, selBtn) ::
          (l1 ++ (t0 + LONG_PRESS_TIME) :: l2).map fun t => (t, selBtn)) ++
        [(tR, noBtn)])).2 = [(t0 + LONG_PRESS_TIME, Transition.longPress)] := by
  have h0 := handleButtons_selStart s t0 hh hl
  have h2 := handleButtons_selLong s t0
  simp only [List.map_append, List.map_cons, List.cons_append]
  rw [runButtons_cons, h0]
  simp only [Option.map_none', Option.toList_none, List.nil_append]
  rw [runButtons_append, runButtons_append, h1]
  simp only []
  rw [runButtons_cons, h2]
  simp only [Option.map_some', Option.toList_some]
  rw [h3]
  simp only []
  rw [runButtons_cons, hrel]
  simp only [Option.map_none', Option.toList_none, runButtons_nil,
    List.nil_append, List.append_nil, List.singleton_append]

set_option maxRecDepth 4000 in
/-- Characterization of the events of one Select press-and-release cycle
sampled every millisecond: pressed for `d` ms then released.  A press of
1–799 ms yields exactly a short press on release; a press of exactly
800 ms yields no event at all; a press of 801 ms or longer yields exactly
a long press at `t0 + 800`. -/
lemma runButtons_selCycle (s : AppState) (t0 d : Nat) (hd : 1 ≤ d)
    (hh : s.selectHeld = false) (hl : s.longPressHandled = false) :
    (runButtons s (selCycle t0 d)).2 =
      if d < LONG_PRESS_TIME then [(t0 + d, Transition.shortPress)]
      else if d = LONG_PRESS_TIME then []
      else [(t0 + LONG_PRESS_TIME, Transition.longPress)] := by
  obtain ⟨d', rfl⟩ : ∃ d', d = d' + 1 := ⟨d - 1, by omega⟩
  unfold selCycle
  rw [List.range'_succ, List.map_cons]
  have h0 := handleButtons_selStart s t0 hh hl
  by_cases hcase : d' + 1 ≤ LONG_PRESS_TIME
  · -- press up to the threshold length: the hold state persists
    have h1 := runButtons_selHold d' (t0 + 1) (selMidState s t0) rfl
      (by show t0 + 1 + d' ≤ t0 + LONG_PRESS_TIME; omega)
    by_cases hshort : d' + 1 < LONG_PRESS_TIME
    · -- strict short press: fires on release
      rw [if_pos hshort]
      have hrel : (handleButtons (selMidState s t0) (t0 + (d' + 1)) noBtn).2 =
          some (Transition.shortPress,
            if (selMidState s t0).displayOn = false then Invalidation.full
            else Invalidation.noRedraw) := by
        unfold handleButtons
        rw [if_neg (by simp [noBtn]),
          if_pos (show (selMidState s t0).selectHeld = true ∧
            t0 + (d' + 1) - (selMidState s t0).selectPressStart < LONG_PRESS_TIME from
            ⟨rfl, by show t0 + (d' + 1) - t0 < LONG_PRESS_TIME; omega⟩)]
        split <;> rfl
      rw [List.cons_append]
      simp [runButtons, runButtons_append, h0, h1, hrel]
    · -- exactly the threshold: release swallows the press, no event
      have h800 : d' + 1 = LONG_PRESS_TIME := by omega
      rw [if_neg hshort, if_pos h800]
      have hrel : handleButtons (selMidState s t0) (t0 + (d' + 1)) noBtn =
          ({ selMidState s t0 with selectHeld := false, longPressHandled := false },
           none) := by
        unfold handleButtons
        rw [if_neg (by simp [noBtn]),
          if_neg (by
            rintro ⟨_, hlt⟩
            rw [show (selMidState s t0).selectPressStart = t0 from rfl] at hlt
            omega)]
        exact navSection_noLR _ _ _ rfl rfl
      rw [List.cons_append]
      simp [runButtons, runButtons_append, h0, h1, hrel]
  · -- press strictly longer than the threshold: the long press fires at t0+800
    rw [if_neg (by omega), if_neg (by omega)]
    obtain ⟨e, rfl⟩ : ∃ e, d' = LONG_PRESS_TIME + e :=
      ⟨d' - LONG_PRESS_TIME, by omega⟩
    have hsplit : List.range' (t0 + 1) (LONG_PRESS_TIME + e) =
        List.range' (t0 + 1) (LONG_PRESS_TIME - 1) ++
          ((t0 + LONG_PRESS_TIME) :: List.range' (t0 + LONG_PRESS_TIME + 1) e) := by
      simp only [LONG_PRESS_TIME]
      rw [show (800 : Nat) + e = e + 1 + 799 from by omega,
        ← List.range'_append_1 (t0 + 1) 799 (e + 1)]
      congr 1
    rw [hsplit]
    have h1 := runButtons_selHold (LONG_PRESS_TIME - 1) (t0 + 1) (selMidState s t0) rfl
      (by
        show t0 + 1 + (LONG_PRESS_TIME - 1) ≤ t0 + LONG_PRESS_TIME
        simp only [LONG_PRESS_TIME]
        omega)
    have h2 := handleButtons_selLong s t0
    have h3 := runButtons_selSuppressed e (t0 + LONG_PRESS_TIME + 1)
      (selLongState s t0) rfl rfl
    have hrel : handleButtons (selLongState s t0)
        (t0 + (LONG_PRESS_TIME + e + 1)) noBtn =
        ({ selLongState s t0 with selectHeld := false, longPressHandled := false },
         none) := by
      unfold handleButtons
      rw [if_neg (by simp [noBtn]),
        if_neg (by rintro ⟨habs, _⟩; simp [selLongState] at habs)]
      exact navSection_noLR _ _ _ rfl rfl
    exact runButtons_selChainLong s _ t0 (t0 + (LONG_PRESS_TIME + e + 1))
      (List.range' (t0 + 1) (LONG_PRESS_TIME - 1))
      (List.range' (t0 + LONG_PRESS_TIME + 1) e) hh hl h1 h3 hrel

/-- C5 counterexample: a Select press observed pressed at t = 0..799 and
released at t = 800 (press-release distance exactly 800 = the long-press
threshold) produces no event at all — neither the claimed LongPress at
t0+800 nor a ShortPress — so the claimed dichotomy fails at the boundary. -/
theorem c5_counterexample :
    LONG_PRESS_TIME ≤ 800 - 0 ∧
    (runButtons initState (selCycle 0 800)).2 = [] := by
  refine ⟨by decide, ?_⟩
  rw [runButtons_selCycle initState 0 800 (by decide) rfl rfl,
    if_neg (by decide), if_pos (by decide)]

/-- C5 amended: for a Select press-and-release cycle sampled every
millisecond (pressed at `t0 … t0+d-1`, released at `t0+d`), a press of
duration `d < 800` fires exactly a ShortPress on release; a press of
duration exactly 800 fires nothing (release is observed at the same sample
at which the threshold would first be reached); a press of duration
`d ≥ 801` fires exactly a LongPress at `t0 + 800`. -/
theorem c5_select_press_classification (s : AppState) (t0 d : Nat) (hd : 1 ≤ d)
    (hh : s.selectHeld = false) (hl : s.longPressHandled = false) :
    (d < 800 →
      (runButtons s (selCycle t0 d)).2 = [(t0 + d, Transition.shortPress)]) ∧
    (d = 800 → (runButtons s (selCycle t0 d)).2 = []) ∧
    (801 ≤ d →
      (runButtons s (selCycle t0 d)).2 = [(t0 + 800, Transition.longPress)]) := by
  have h := runButtons_selCycle s t0 d hd hh hl
  refine ⟨fun hlt => ?_, fun heq => ?_, fun hge => ?_⟩
  · rw [h, if_pos (by simp only [LONG_PRESS_TIME]; omega)]
  · rw [h, if_neg (by simp only [LONG_PRESS_TIME]; omega),
      if_pos (by simp only [LONG_PRESS_TIME]; omega)]
  · rw [h, if_neg (by simp only [LONG_PRESS_TIME]; omega),
      if_neg (by simp only [LONG_PRESS_TIME]; omega)]
    rfl

/-- Witness for C5's amended theorem: a 300 ms press from the initial state
fires exactly a ShortPress at its release sample. -/
theorem c5_witness :
    (300 < 800 →
      (runButtons initState (selCycle 100 300)).2 =
        [(100 + 300, Transition.shortPress)]) ∧
    (300 = 800 → (runButtons initState (selCycle 100 300)).2 = []) ∧
    (801 ≤ 300 →
      (runButtons initState (selCycle 100 300)).2 =
        [(100 + 800, Transition.longPress)]) :=
  c5_select_press_classification initState 100 300 (by decide) rfl rfl

end WeatherReporter
